import Mathlib

/-!
Verification of the real-time threat-classification engine
(`src/core_bots/sentinelbot.py`) against its specification.

The Python module is shallowly embedded below.  Conventions:
- Python floats that carry times, scores and averages become `ℚ`
  (all arithmetic used by the module is exact on the rationals);
- Python dicts become association lists (`List (key × value)`)
  looked up with `List.lookup`, preserving insertion order;
- wall-clock reads (`time.time()`) become explicit `ℚ` parameters;
- the two regex-table evaluators (`_check_sql_injection`,
  `_check_xss`) are abstracted by a Boolean "some pattern matched"
  parameter, while the signal they construct on a match is taken
  verbatim from the source; the remaining evaluators are embedded in
  full;
- network and database effects become explicit outcome parameters
  (`NetOutcome`) and extra outputs (the Boolean "a network call was
  issued" flag on the remote client).
-/

set_option autoImplicit false

namespace SentinelBot

/-- One local rule finding: the `type`/`severity` part of the dicts built by
the `LocalThreatDetector._check_*` evaluators (the free-form evidence fields
are dropped). -/
structure Sig where
  type : String
  severity : Nat
  deriving DecidableEq, Repr

/-- The fields of a Python request-data dict consumed by the module.
`query_params` only feeds the two regex evaluators, which are abstracted
by Booleans, so it is carried but not consumed. -/
structure RequestData where
  ip : String
  user_agent : String
  path : String
  method : String
  headers : List (String × String)
  query_params : List (String × String)
  deriving DecidableEq, Repr

/-- `ThreatDetection` dataclass (the free-form `threat_data` dict is
dropped; every scalar field is kept). -/
structure ThreatDetection where
  threat_type : String
  severity_level : Nat
  confidence : ℚ
  source_ip : String
  user_agent : String
  request_path : String
  spider_score : ℚ
  detection_time : ℚ
  recommended_action : String
  deriving DecidableEq, Repr

/-- `a` occurs at the head of `b` (character-list version of Python
substring matching, used to embed `x in y`). -/
def leadsWith : List Char → List Char → Bool
  | [], _ => true
  | _ :: _, [] => false
  | a :: as, b :: bs => a == b && leadsWith as bs

/-- `needle` occurs contiguously somewhere in `hay`: Python's
`needle in hay` on strings. -/
def containsSub (needle : List Char) : List Char → Bool
  | [] => leadsWith needle []
  | c :: t => leadsWith needle (c :: t) || containsSub needle t

/-- Python's `str.lower()` (character-list form, so that it evaluates by
kernel reduction; agrees with the source on the ASCII data involved). -/
def lowerChars (s : String) : List Char := s.toList.map Char.toLower

/-- `LocalThreatDetector.path_traversal_patterns`: under `re.IGNORECASE`
each of these regexes is a literal case-insensitive substring. -/
def path_traversal_patterns : List String :=
  ["../", "..\\", "%2e%2e%2f", "%2e%2e/", "..%2f"]

/-- `LocalThreatDetector.suspicious_user_agents`. -/
def suspicious_user_agents : List String :=
  ["sqlmap", "nikto", "nmap", "masscan", "zap", "burp",
   "acunetix", "nessus", "openvas", "w3af", "skipfish"]

/-- Header names inspected by `_check_suspicious_headers`. -/
def suspicious_headers : List String :=
  ["x-forwarded-for", "x-real-ip", "x-originating-ip"]

/-- `_check_sql_injection`: the regex-table scan over
`path + " " + joined query params` is abstracted by `matched`; on a match
the source returns a severity-9 `sql_injection` dict. -/
def check_sql_injection (matched : Bool) : Option Sig :=
  if matched then some { type := "sql_injection", severity := 9 } else none

/-- `_check_xss`: regex scan abstracted by `matched`; on a match the source
returns a severity-7 `xss` dict. -/
def check_xss (matched : Bool) : Option Sig :=
  if matched then some { type := "xss", severity := 7 } else none

/-- `_check_path_traversal`: scans the path (case-insensitively) for any of
the literal traversal patterns. -/
def check_path_traversal (path : String) : Option Sig :=
  if path_traversal_patterns.any
      (fun pat => containsSub pat.toList (lowerChars path)) then
    some { type := "path_traversal", severity := 6 }
  else none

/-- `_check_user_agent`: substring scan of the lowercased user agent against
the scanner-tool deny list. -/
def check_user_agent (user_agent : String) : Option Sig :=
  if suspicious_user_agents.any
      (fun s => containsSub s.toList (lowerChars user_agent)) then
    some { type := "suspicious_user_agent", severity := 5 }
  else none

/-- `_check_suspicious_headers`: a `header_injection` signal is produced
only when a header whose lowercased NAME is one of `suspicious_headers`
has a value containing a raw newline or carriage return. -/
def check_suspicious_headers (headers : List (String × String)) : Option Sig :=
  if headers.any (fun p =>
      suspicious_headers.any (fun q => q.toList == lowerChars p.1) &&
      (p.2.toList.contains '\n' || p.2.toList.contains '\r')) then
    some { type := "header_injection", severity := 7 }
  else none

/-- C3 counterexample: a header value with a raw newline under a header name
outside the inspected deny-list produces no signal, refuting "regardless of
the header's name". -/
theorem c3_counterexample :
    check_suspicious_headers [("x-custom-header", "evil\ninjected")] = none := by
  decide

/-- C3 (amended): the evaluator produces the severity-7 `header_injection`
signal exactly when some header whose lowercased name is `x-forwarded-for`,
`x-real-ip` or `x-originating-ip` has a value containing a raw newline or
carriage return. -/
theorem c3_header_injection_characterisation (headers : List (String × String)) :
    check_suspicious_headers headers
        = some { type := "header_injection", severity := 7 } ↔
      ∃ p ∈ headers,
        suspicious_headers.any (fun q => q.toList == lowerChars p.1) = true ∧
        (p.2.toList.contains '\n' = true ∨ p.2.toList.contains '\r' = true) := by
  unfold check_suspicious_headers
  split
  case isTrue h =>
    rw [List.any_eq_true] at h
    simp only [Bool.and_eq_true, Bool.or_eq_true] at h
    exact iff_of_true rfl h
  case isFalse h =>
    rw [List.any_eq_true] at h
    simp only [Bool.and_eq_true, Bool.or_eq_true] at h
    exact iff_of_false (by simp) h

/-- `LocalThreatDetector.rate_limit_window` (60 s). -/
def rate_limit_window : ℚ := 60

/-- `LocalThreatDetector.rate_limit_threshold` (100 requests per window). -/
def rate_limit_threshold : Nat := 100

/-- `LocalThreatDetector.request_counts`: ip → list of `(timestamp, count)`
pairs; the Python dict is modelled as an insertion-ordered association
list. -/
abbrev RateMap := List (String × List (ℚ × Nat))

/-- The dict comprehension in `_check_rate_limiting`: every ip keeps only
the `(timestamp, count)` pairs with `timestamp > cutoff`. -/
def prune_counts (st : RateMap) (cutoff : ℚ) : RateMap :=
  st.map (fun p => (p.1, p.2.filter (fun q => cutoff < q.1)))

/-- The state-update part of `_check_rate_limiting`: prune all entries, add
the key for `ip` if missing, and append `(current_time, 1)` to its list. -/
def rate_record (st : RateMap) (ip : String) (current_time : ℚ) : RateMap :=
  let cutoff_time := current_time - rate_limit_window
  let pruned := prune_counts st cutoff_time
  let withKey := if (pruned.lookup ip).isSome then pruned else pruned ++ [(ip, [])]
  withKey.map (fun p => if p.1 == ip then (p.1, p.2 ++ [(current_time, 1)]) else p)

/-- `sum(count for _, count in self.request_counts[ip])`. -/
def window_total (st : RateMap) (ip : String) : Nat :=
  ((st.lookup ip).getD []).foldl (fun acc q => acc + q.2) 0

/-- `_check_rate_limiting`: returns the violation signal (when the in-window
total strictly exceeds the threshold) together with the updated map. -/
def check_rate_limiting (st : RateMap) (ip : String) (current_time : ℚ) :
    Option Sig × RateMap :=
  let updated := rate_record st ip current_time
  let total_requests := window_total updated ip
  if rate_limit_threshold < total_requests then
    (some { type := "rate_limit_violation", severity := 6 }, updated)
  else
    (none, updated)

theorem snd_check_rate_limiting (st : RateMap) (ip : String) (t : ℚ) :
    (check_rate_limiting st ip t).2 = rate_record st ip t := by
  unfold check_rate_limiting
  dsimp only
  split <;> rfl

theorem fst_check_rate_limiting (st : RateMap) (ip : String) (t : ℚ) :
    (check_rate_limiting st ip t).1
      = if rate_limit_threshold < window_total (rate_record st ip t) ip
        then some { type := "rate_limit_violation", severity := 6 }
        else none := by
  unfold check_rate_limiting
  dsimp only
  split <;> rfl

theorem lookup_prune_counts (st : RateMap) (cutoff : ℚ) (ip : String) :
    (prune_counts st cutoff).lookup ip
      = (st.lookup ip).map (fun l => l.filter (fun q => cutoff < q.1)) := by
  unfold prune_counts
  induction st with
  | nil => rfl
  | cons p t ih =>
    obtain ⟨k, v⟩ := p
    by_cases hk : k = ip
    · subst hk
      simp [List.lookup]
    · have h2 : (ip == k) = false := beq_eq_false_iff_ne.mpr (Ne.symm hk)
      simp only [List.map_cons, List.lookup, h2]
      exact ih

theorem lookup_map_append_ip (st : RateMap) (ip : String) (x : ℚ × Nat) :
    (st.map (fun p => if p.1 == ip then (p.1, p.2 ++ [x]) else p)).lookup ip
      = (st.lookup ip).map (fun l => l ++ [x]) := by
  induction st with
  | nil => rfl
  | cons p t ih =>
    obtain ⟨k, v⟩ := p
    by_cases hk : k = ip
    · subst hk
      rw [List.map_cons, if_pos (beq_self_eq_true k)]
      simp [List.lookup]
    · have h1 : ¬ ((k == ip) = true) := by
        simp [beq_eq_false_iff_ne.mpr hk]
      have h2 : (ip == k) = false := beq_eq_false_iff_ne.mpr (Ne.symm hk)
      rw [List.map_cons, if_neg h1]
      simp only [List.lookup, h2]
      exact ih

theorem lookup_append_single (l : RateMap) (ip : String) (v : List (ℚ × Nat))
    (h : l.lookup ip = none) :
    (l ++ [(ip, v)]).lookup ip = some v := by
  induction l with
  | nil => simp [List.lookup]
  | cons p t ih =>
    obtain ⟨k, w⟩ := p
    by_cases hk : k = ip
    · subst hk
      simp [List.lookup] at h
    · have h2 : (ip == k) = false := beq_eq_false_iff_ne.mpr (Ne.symm hk)
      simp only [List.lookup, h2] at h
      simp only [List.cons_append, List.lookup, h2]
      exact ih h

/-- Lookup characterisation of one `_check_rate_limiting` state update:
the stored list for `ip` becomes "old entries still inside the window,
then the current request". -/
theorem rate_record_lookup (st : RateMap) (ip : String) (t : ℚ) :
    (rate_record st ip t).lookup ip
      = some ((((st.lookup ip).getD []).filter
          (fun q => t - rate_limit_window < q.1)) ++ [(t, 1)]) := by
  unfold rate_record
  cases hl : st.lookup ip with
  | some old =>
    have hp : (prune_counts st (t - rate_limit_window)).lookup ip
        = some (old.filter (fun q => t - rate_limit_window < q.1)) := by
      rw [lookup_prune_counts, hl]; rfl
    simp only [hl, Option.getD_some]
    simp only [hp, Option.isSome_some, if_true]
    rw [lookup_map_append_ip, hp]
    rfl
  | none =>
    have hp : (prune_counts st (t - rate_limit_window)).lookup ip = none := by
      rw [lookup_prune_counts, hl]; rfl
    simp only [hl, Option.getD_none, List.filter_nil, List.nil_append]
    simp only [hp, Option.isSome_none, Bool.false_eq_true, if_false]
    rw [lookup_map_append_ip, lookup_append_single _ _ _ hp]
    rfl

theorem rate_signal_iff (st : RateMap) (ip : String) (t : ℚ) :
    (check_rate_limiting st ip t).1
        = some { type := "rate_limit_violation", severity := 6 } ↔
      rate_limit_threshold < window_total (check_rate_limiting st ip t).2 ip := by
  rw [fst_check_rate_limiting, snd_check_rate_limiting]
  split
  case isTrue h => exact iff_of_true rfl h
  case isFalse h => exact iff_of_false (by simp) h

theorem foldl_counts_map_ones (l : List ℚ) (a : Nat) :
    ((l.map (fun s => (s, 1))).foldl (fun acc q => acc + q.2) a) = a + l.length := by
  induction l generalizing a with
  | nil => simp
  | cons t ts ih =>
    simp only [List.map_cons, List.foldl_cons, List.length_cons]
    rw [ih]
    omega

/-- Iterated classification calls for a single source: feed a list of
request timestamps through `_check_rate_limiting`, threading the map. -/
def rateRun (ip : String) : List ℚ → RateMap → RateMap
  | [], st => st
  | t :: ts, st => rateRun ip ts (check_rate_limiting st ip t).2

theorem rate_record_singleton (ip : String) (m : List ℚ) (t : ℚ)
    (hkeep : ∀ a ∈ m, t - rate_limit_window < a) :
    rate_record [(ip, m.map (fun s => (s, 1)))] ip t
      = [(ip, (m ++ [t]).map (fun s => (s, 1)))] := by
  have hfilter : (m.map (fun s => (s, 1))).filter
      (fun q => decide (t - rate_limit_window < q.1)) = m.map (fun s => (s, 1)) := by
    refine List.filter_eq_self.mpr ?_
    intro q hq
    obtain ⟨s, hs, rfl⟩ := List.mem_map.mp hq
    exact decide_eq_true (hkeep s hs)
  simp [rate_record, prune_counts, List.lookup, hfilter, List.map_append]

theorem check_rate_limiting_empty (ip : String) (t : ℚ) :
    (check_rate_limiting [] ip t).2 = [(ip, [(t, 1)])] := by
  rw [snd_check_rate_limiting]
  simp [rate_record, prune_counts, List.lookup]

theorem rateRun_singleton (ip : String) (l m : List ℚ)
    (hW : ∀ a ∈ m ++ l, ∀ b ∈ m ++ l, a - b < rate_limit_window) :
    rateRun ip l [(ip, m.map (fun s => (s, 1)))]
      = [(ip, ((m ++ l).map (fun s => (s, 1))))] := by
  induction l generalizing m with
  | nil => simp [rateRun]
  | cons t ts ih =>
    have hkeep : ∀ a ∈ m, t - rate_limit_window < a := by
      intro a ha
      have h := hW t (by simp) a (by simp [ha])
      linarith
    rw [rateRun, snd_check_rate_limiting, rate_record_singleton ip m t hkeep]
    have hW' : ∀ a ∈ (m ++ [t]) ++ ts, ∀ b ∈ (m ++ [t]) ++ ts,
        a - b < rate_limit_window := by
      intro a ha b hb
      rw [List.append_assoc] at ha hb
      exact hW a ha b hb
    have h := ih (m ++ [t]) hW'
    simpa [List.append_assoc] using h

theorem rateRun_cons_empty (ip : String) (t : ℚ) (ts : List ℚ)
    (hW : ∀ a ∈ t :: ts, ∀ b ∈ t :: ts, a - b < rate_limit_window) :
    rateRun ip (t :: ts) [] = [(ip, ((t :: ts).map (fun s => (s, 1))))] := by
  rw [rateRun, check_rate_limiting_empty]
  have h := rateRun_singleton ip ts [t] (by simpa using hW)
  simpa using h

/-- C6: on each call the rate evaluator keeps, for the source identifier,
exactly the previous timestamps still inside the window and appends the
current one; the violation signal is returned exactly when the resulting
in-window count strictly exceeds the threshold; and in a run of requests
all inside one window the signal appears on the 101st and later calls,
never before. -/
theorem c6_rate_window :
    (∀ (st : RateMap) (ip : String) (t : ℚ),
      (check_rate_limiting st ip t).2.lookup ip
        = some ((((st.lookup ip).getD []).filter
            (fun q => t - rate_limit_window < q.1)) ++ [(t, 1)]) ∧
      ((check_rate_limiting st ip t).1
          = some { type := "rate_limit_violation", severity := 6 } ↔
        rate_limit_threshold < window_total (check_rate_limiting st ip t).2 ip)) ∧
    (∀ (ts : List ℚ) (ip : String) (i : Nat) (hi : i < ts.length),
      (∀ a ∈ ts, ∀ b ∈ ts, a - b < rate_limit_window) →
      ((check_rate_limiting (rateRun ip (ts.take i) []) ip (ts.get ⟨i, hi⟩)).1
          = some { type := "rate_limit_violation", severity := 6 } ↔
        100 < i + 1)) := by
  constructor
  · intro st ip t
    refine ⟨?_, rate_signal_iff st ip t⟩
    rw [snd_check_rate_limiting]
    exact rate_record_lookup st ip t
  · intro ts ip i hi hW
    rw [rate_signal_iff]
    cases htake : ts.take i with
    | nil =>
      have hi0 : i = 0 := by
        rcases List.take_eq_nil_iff.mp htake with h | h
        · exact h
        · subst h; simp at hi
      simp only [rateRun, snd_check_rate_limiting]
      have hone : window_total (rate_record [] ip (ts.get ⟨i, hi⟩)) ip = 1 := by
        rw [window_total, rate_record_lookup]
        simp [List.lookup]
      rw [hone, hi0]
      simp [rate_limit_threshold]
    | cons t0 rest =>
      have hWtake : ∀ a ∈ t0 :: rest, ∀ b ∈ t0 :: rest, a - b < rate_limit_window := by
        intro a ha b hb
        rw [← htake] at ha hb
        exact hW a (List.mem_of_mem_take ha) b (List.mem_of_mem_take hb)
      rw [rateRun_cons_empty ip t0 rest hWtake, snd_check_rate_limiting]
      have hkeep : ∀ a ∈ t0 :: rest, (ts.get ⟨i, hi⟩) - rate_limit_window < a := by
        intro a ha
        have ha' : a ∈ ts := List.mem_of_mem_take (htake ▸ ha)
        have h := hW (ts.get ⟨i, hi⟩) (List.get_mem ts i hi) a ha'
        linarith
      rw [rate_record_singleton ip (t0 :: rest) _ hkeep]
      have hlen : rest.length + 1 = i := by
        have h := congrArg List.length htake
        rw [List.length_take] at h
        simp at h
        omega
      have hcount : window_total
          [(ip, (((t0 :: rest) ++ [ts.get ⟨i, hi⟩]).map (fun s => (s, 1))))] ip
            = i + 1 := by
        simp [window_total, List.lookup, foldl_counts_map_ones]
        omega
      rw [hcount]
      simp [rate_limit_threshold]

/-- C6 witness: 101 requests at one instant from one source; the 101st call
yields the violation signal. -/
theorem c6_witness :
    (check_rate_limiting
        (rateRun "10.0.0.1" (List.replicate 100 (0 : ℚ)) []) "10.0.0.1" 0).1
      = some { type := "rate_limit_violation", severity := 6 } := by
  have hlen : (100 : Nat) < (List.replicate 101 (0 : ℚ)).length := by
    simp
  have h := c6_rate_window.2 (List.replicate 101 (0 : ℚ)) "10.0.0.1" 100 hlen
    (by
      intro a ha b hb
      rw [List.eq_of_mem_replicate ha, List.eq_of_mem_replicate hb]
      norm_num [rate_limit_window])
  have htake : (List.replicate 101 (0 : ℚ)).take 100 = List.replicate 100 (0 : ℚ) := by
    norm_num [List.take_replicate]
  have hget : (List.replicate 101 (0 : ℚ)).get ⟨100, hlen⟩ = (0 : ℚ) :=
    List.get_replicate ..
  rw [htake, hget] at h
  exact h.mpr (by norm_num)

/-- `LocalThreatDetector.analyze_request`: run the six evaluators in their
fixed order, collect the matching signals, and assemble the result.
`sqlMatch`/`xssMatch` abstract the two regex scans; `current_time` is the
wall clock read inside `_check_rate_limiting`; `detection_time` is the
measured elapsed time in milliseconds. -/
def local_analyze_request (sqlMatch xssMatch : Bool) (request_counts : RateMap)
    (req : RequestData) (current_time : ℚ) (detection_time : ℚ) :
    ThreatDetection × RateMap :=
  let sql_threat := check_sql_injection sqlMatch
  let xss_threat := check_xss xssMatch
  let traversal_threat := check_path_traversal req.path
  let ua_threat := check_user_agent req.user_agent
  let rate := check_rate_limiting request_counts req.ip current_time
  let header_threat := check_suspicious_headers req.headers
  let threats :=
    [sql_threat, xss_threat, traversal_threat, ua_threat, rate.1,
      header_threat].filterMap id
  let max_severity := threats.foldl (fun m s => max m s.severity) 0
  let primary_threat :=
    match threats.head? with
    | some s => s.type
    | none => "none"
  let confidence := min ((95 : ℚ) / 100)
    ((threats.length : ℚ) * (2 / 10) + ((max_severity : ℚ) / 10) * (5 / 10))
  let action :=
    if 8 ≤ max_severity then "block_immediately"
    else if 5 ≤ max_severity then "rate_limit"
    else if 3 ≤ max_severity then "monitor_closely"
    else "allow"
  ({ threat_type := primary_threat
     severity_level := max_severity
     confidence := confidence
     source_ip := req.ip
     user_agent := req.user_agent
     request_path := req.path
     spider_score := 0
     detection_time := detection_time
     recommended_action := action }, rate.2)

theorem check_sql_injection_eq {b : Bool} {r : Sig}
    (h : check_sql_injection b = some r) : r = { type := "sql_injection", severity := 9 } := by
  unfold check_sql_injection at h
  split at h
  · exact (Option.some.inj h).symm
  · simp at h

theorem check_xss_eq {b : Bool} {r : Sig}
    (h : check_xss b = some r) : r = { type := "xss", severity := 7 } := by
  unfold check_xss at h
  split at h
  · exact (Option.some.inj h).symm
  · simp at h

theorem check_path_traversal_eq {p : String} {r : Sig}
    (h : check_path_traversal p = some r) : r = { type := "path_traversal", severity := 6 } := by
  unfold check_path_traversal at h
  split at h
  · exact (Option.some.inj h).symm
  · simp at h

theorem check_user_agent_eq {ua : String} {r : Sig}
    (h : check_user_agent ua = some r) : r = { type := "suspicious_user_agent", severity := 5 } := by
  unfold check_user_agent at h
  split at h
  · exact (Option.some.inj h).symm
  · simp at h

theorem check_suspicious_headers_eq {hs : List (String × String)} {r : Sig}
    (h : check_suspicious_headers hs = some r) : r = { type := "header_injection", severity := 7 } := by
  unfold check_suspicious_headers at h
  split at h
  · exact (Option.some.inj h).symm
  · simp at h

theorem check_rate_limiting_eq {st : RateMap} {ip : String} {t : ℚ} {r : Sig}
    (h : (check_rate_limiting st ip t).1 = some r) :
    r = { type := "rate_limit_violation", severity := 6 } := by
  rw [fst_check_rate_limiting] at h
  split at h
  · exact (Option.some.inj h).symm
  · simp at h

/-- C7: the primary threat type of a local analysis is the type of the first
matching evaluator in the fixed order (sql_injection, xss, path_traversal,
suspicious_user_agent, rate_limit_violation, header_injection), regardless
of later (possibly higher-severity) signals; with no matches it is
`none`. -/
theorem c7_primary_first (sqlMatch xssMatch : Bool) (request_counts : RateMap)
    (req : RequestData) (now dt : ℚ) :
    ((check_sql_injection sqlMatch).isSome = true →
      (local_analyze_request sqlMatch xssMatch request_counts req now dt).1.threat_type
        = "sql_injection") ∧
    (check_sql_injection sqlMatch = none →
      (check_xss xssMatch).isSome = true →
      (local_analyze_request sqlMatch xssMatch request_counts req now dt).1.threat_type
        = "xss") ∧
    (check_sql_injection sqlMatch = none →
      check_xss xssMatch = none →
      (check_path_traversal req.path).isSome = true →
      (local_analyze_request sqlMatch xssMatch request_counts req now dt).1.threat_type
        = "path_traversal") ∧
    (check_sql_injection sqlMatch = none →
      check_xss xssMatch = none →
      check_path_traversal req.path = none →
      (check_user_agent req.user_agent).isSome = true →
      (local_analyze_request sqlMatch xssMatch request_counts req now dt).1.threat_type
        = "suspicious_user_agent") ∧
    (check_sql_injection sqlMatch = none →
      check_xss xssMatch = none →
      check_path_traversal req.path = none →
      check_user_agent req.user_agent = none →
      ((check_rate_limiting request_counts req.ip now).1).isSome = true →
      (local_analyze_request sqlMatch xssMatch request_counts req now dt).1.threat_type
        = "rate_limit_violation") ∧
    (check_sql_injection sqlMatch = none →
      check_xss xssMatch = none →
      check_path_traversal req.path = none →
      check_user_agent req.user_agent = none →
      (check_rate_limiting request_counts req.ip now).1 = none →
      (check_suspicious_headers req.headers).isSome = true →
      (local_analyze_request sqlMatch xssMatch request_counts req now dt).1.threat_type
        = "header_injection") ∧
    (check_sql_injection sqlMatch = none →
      check_xss xssMatch = none →
      check_path_traversal req.path = none →
      check_user_agent req.user_agent = none →
      (check_rate_limiting request_counts req.ip now).1 = none →
      check_suspicious_headers req.headers = none →
      (local_analyze_request sqlMatch xssMatch request_counts req now dt).1.threat_type
        = "none") := by
  refine ⟨?_, ?_, ?_, ?_, ?_, ?_, ?_⟩
  · intro h1
    obtain ⟨r, hr⟩ := Option.isSome_iff_exists.mp h1
    have hre := check_sql_injection_eq hr
    subst hre
    simp [local_analyze_request, hr]
  · intro h1 h2
    obtain ⟨r, hr⟩ := Option.isSome_iff_exists.mp h2
    have hre := check_xss_eq hr
    subst hre
    simp [local_analyze_request, h1, hr]
  · intro h1 h2 h3
    obtain ⟨r, hr⟩ := Option.isSome_iff_exists.mp h3
    have hre := check_path_traversal_eq hr
    subst hre
    simp [local_analyze_request, h1, h2, hr]
  · intro h1 h2 h3 h4
    obtain ⟨r, hr⟩ := Option.isSome_iff_exists.mp h4
    have hre := check_user_agent_eq hr
    subst hre
    simp [local_analyze_request, h1, h2, h3, hr]
  · intro h1 h2 h3 h4 h5
    obtain ⟨r, hr⟩ := Option.isSome_iff_exists.mp h5
    have hre := check_rate_limiting_eq hr
    subst hre
    simp [local_analyze_request, h1, h2, h3, h4, hr]
  · intro h1 h2 h3 h4 h5 h6
    obtain ⟨r, hr⟩ := Option.isSome_iff_exists.mp h6
    have hre := check_suspicious_headers_eq hr
    subst hre
    simp [local_analyze_request, h1, h2, h3, h4, h5, hr]
  · intro h1 h2 h3 h4 h5 h6
    simp [local_analyze_request, h1, h2, h3, h4, h5, h6]

/-- A request whose user agent matches the scanner deny-list (severity 5)
and whose `x-real-ip` header carries an injected newline (severity 7). -/
def reqScannerWithHeader : RequestData :=
  { ip := "203.0.113.7"
    user_agent := "sqlmap/1.0"
    path := "/api/users"
    method := "GET"
    headers := [("x-real-ip", "1.2.3.4\nX-Evil: 1")]
    query_params := [] }

/-- C7 witness: the user-agent rule fires before the higher-severity
header-injection rule, so the primary type is `suspicious_user_agent`. -/
theorem c7_witness :
    (local_analyze_request false false [] reqScannerWithHeader 0 0).1.threat_type
      = "suspicious_user_agent" := by
  have h := (c7_primary_first false false [] reqScannerWithHeader 0 0).2.2.2.1
  exact h (by decide) (by decide) (by decide) (by decide)

/-- The JSON body of a remote threat-intel response as consumed by the
module: `threat_score`, `threat_types`, `reputation`. -/
structure RemoteResp where
  threat_score : ℚ
  threat_types : List String
  reputation : String
  deriving DecidableEq, Repr

/-- The neutral score `{"threat_score": 0.0, "threat_types": [],
"reputation": "unknown"}` returned on any remote failure. -/
def neutral_score : RemoteResp :=
  { threat_score := 0, threat_types := [], reputation := "unknown" }

/-- Outcome of the single HTTP POST issued by `analyze_threat`: a response
with a status and parsed body, a timeout, or another transport
exception. -/
inductive NetOutcome where
  | response (status : Nat) (body : RemoteResp)
  | timeout
  | exn
  deriving DecidableEq, Repr

/-- `SpiderThreatAPI.cache`: key → (cached result, insertion time). -/
abbrev IntelCache := List (String × (RemoteResp × ℚ))

/-- `SpiderThreatAPI.cache_ttl` (300 s). -/
def cache_ttl : ℚ := 300

/-- The cache key of `analyze_threat`: md5 hashing of the concatenation
`f"{ip}{user_agent}{path}"` is modelled as the identity on the preimage
(identical triples give identical keys, which is the only property the
module relies on). -/
def cacheKey (ip user_agent path : String) : String :=
  ip ++ user_agent ++ path

/-- Python dict assignment `self.cache[key] = v`, modelled as
association-list replacement. -/
def cacheStore (cache : IntelCache) (key : String) (v : RemoteResp × ℚ) :
    IntelCache :=
  (key, v) :: cache.filter (fun p => p.1 != key)

/-- The `try` body of `analyze_threat`: a status-200 response is cached and
returned; any other status, a timeout, or any other exception yields the
neutral score.  The Boolean output records that a network call was
issued. -/
def analyze_threat_net (cache : IntelCache) (cache_key : String) (now : ℚ) :
    NetOutcome → RemoteResp × IntelCache × Bool
  | NetOutcome.response status body =>
      if status = 200 then (body, cacheStore cache cache_key (body, now), true)
      else (neutral_score, cache, true)
  | NetOutcome.timeout => (neutral_score, cache, true)
  | NetOutcome.exn => (neutral_score, cache, true)

/-- `SpiderThreatAPI.analyze_threat`: serve from the cache while the entry
is younger than the TTL, otherwise issue the network call. -/
def analyze_threat (cache : IntelCache) (now : ℚ) (ip user_agent path : String)
    (net : NetOutcome) : RemoteResp × IntelCache × Bool :=
  let cache_key := cacheKey ip user_agent path
  match cache.lookup cache_key with
  | some (cached_result, timestamp) =>
      if now - timestamp < cache_ttl then (cached_result, cache, false)
      else analyze_threat_net cache cache_key now net
  | none => analyze_threat_net cache cache_key now net

theorem analyze_threat_net_fail (cache : IntelCache) (key : String) (now : ℚ)
    (net : NetOutcome) (hfail : ∀ body, net ≠ NetOutcome.response 200 body) :
    analyze_threat_net cache key now net = (neutral_score, cache, true) := by
  cases net with
  | response s b =>
    have hs : ¬ (s = 200) := by
      intro h
      subst h
      exact hfail b rfl
    simp [analyze_threat_net, hs]
  | timeout => rfl
  | exn => rfl

/-- C8: whenever the remote client actually issues the network call, any
timeout, transport error, or non-200 response makes it return the neutral
score (and leave the cache unchanged); no remote failure escapes to the
caller (the embedding is a total function). -/
theorem c8_remote_failures_neutral (cache : IntelCache) (now : ℚ)
    (ip ua path : String) (net : NetOutcome)
    (hfail : ∀ body, net ≠ NetOutcome.response 200 body)
    (hcall : (analyze_threat cache now ip ua path net).2.2 = true) :
    (analyze_threat cache now ip ua path net).1 = neutral_score ∧
    (analyze_threat cache now ip ua path net).2.1 = cache := by
  have hnet := analyze_threat_net_fail cache (cacheKey ip ua path) now net hfail
  cases hl : cache.lookup (cacheKey ip ua path) with
  | some p =>
    obtain ⟨cr, ts⟩ := p
    by_cases hf : now - ts < cache_ttl
    · simp [analyze_threat, hl, hf] at hcall
    · simp [analyze_threat, hl, hf, hnet]
  | none =>
    simp [analyze_threat, hl, hnet]

/-- C8 witness: a timeout on a cold cache returns the neutral score and
leaves the cache untouched. -/
theorem c8_witness :
    (analyze_threat [] 0 "198.51.100.1" "curl/8" "/health" NetOutcome.timeout).1
        = neutral_score ∧
    (analyze_threat [] 0 "198.51.100.1" "curl/8" "/health" NetOutcome.timeout).2.1
        = [] :=
  c8_remote_failures_neutral [] 0 "198.51.100.1" "curl/8" "/health"
    NetOutcome.timeout (fun _ h => NetOutcome.noConfusion h) rfl

theorem lookup_cacheStore (cache : IntelCache) (key : String) (v : RemoteResp × ℚ) :
    (cacheStore cache key v).lookup key = some v := by
  simp [cacheStore, List.lookup]

/-- C9: starting from a cache with no entry for the request's key, a first
call whose network response succeeds issues the one network call and caches
the body; a second call for the same (ip, user-agent, path) within the TTL
issues no network call (whatever the network would do) and returns the same
remote score. -/
theorem c9_cache_idempotent (cache : IntelCache) (ip ua path : String)
    (now1 now2 : ℚ) (resp : RemoteResp) (net2 : NetOutcome)
    (hmiss : cache.lookup (cacheKey ip ua path) = none)
    (hfresh : now2 - now1 < cache_ttl) :
    (analyze_threat cache now1 ip ua path (NetOutcome.response 200 resp)).2.2
        = true ∧
    (analyze_threat (analyze_threat cache now1 ip ua path
        (NetOutcome.response 200 resp)).2.1 now2 ip ua path net2).2.2 = false ∧
    (analyze_threat (analyze_threat cache now1 ip ua path
        (NetOutcome.response 200 resp)).2.1 now2 ip ua path net2).1
      = (analyze_threat cache now1 ip ua path (NetOutcome.response 200 resp)).1 ∧
    (analyze_threat cache now1 ip ua path (NetOutcome.response 200 resp)).1
      = resp := by
  have h1 : analyze_threat cache now1 ip ua path (NetOutcome.response 200 resp)
      = (resp, cacheStore cache (cacheKey ip ua path) (resp, now1), true) := by
    simp [analyze_threat, hmiss, analyze_threat_net]
  have h2 : analyze_threat
      (cacheStore cache (cacheKey ip ua path) (resp, now1)) now2 ip ua path net2
      = (resp, cacheStore cache (cacheKey ip ua path) (resp, now1), false) := by
    simp [analyze_threat, lookup_cacheStore, hfresh]
  rw [h1]
  dsimp only
  rw [h2]
  exact ⟨rfl, rfl, rfl, rfl⟩

/-- A concrete malicious remote verdict used by the witnesses. -/
def respHigh : RemoteResp :=
  { threat_score := 9, threat_types := ["automated_attack"], reputation := "malicious" }

/-- C9 witness: two identical classifications ten seconds apart; the first
hits the network, the second is served from the cache with the same
score. -/
theorem c9_witness :
    (analyze_threat [] 0 "9.9.9.9" "agent" "/x" (NetOutcome.response 200 respHigh)).2.2
        = true ∧
    (analyze_threat (analyze_threat [] 0 "9.9.9.9" "agent" "/x"
        (NetOutcome.response 200 respHigh)).2.1 10 "9.9.9.9" "agent" "/x"
        NetOutcome.timeout).2.2 = false ∧
    (analyze_threat (analyze_threat [] 0 "9.9.9.9" "agent" "/x"
        (NetOutcome.response 200 respHigh)).2.1 10 "9.9.9.9" "agent" "/x"
        NetOutcome.timeout).1
      = (analyze_threat [] 0 "9.9.9.9" "agent" "/x"
          (NetOutcome.response 200 respHigh)).1 ∧
    (analyze_threat [] 0 "9.9.9.9" "agent" "/x"
        (NetOutcome.response 200 respHigh)).1 = respHigh :=
  c9_cache_idempotent [] "9.9.9.9" "agent" "/x" 0 10 respHigh NetOutcome.timeout
    rfl (by norm_num [cache_ttl])

/-- `SentinelBot._update_metrics`: bump the detection count and fold the
latency (`detection_time` seconds, converted to ms) into the running
average. -/
def update_metrics (detection_count : Nat) (avg_detection_time : ℚ)
    (detection_time : ℚ) : Nat × ℚ :=
  let detection_time_ms := detection_time * 1000
  let detection_count' := detection_count + 1
  (detection_count',
    (avg_detection_time * ((detection_count' : ℚ) - 1) + detection_time_ms)
      / (detection_count' : ℚ))

/-- Arithmetic mean of a latency list (0 for the empty list, matching the
initial `avg_detection_time = 0.0`). -/
def mean (l : List ℚ) : ℚ := l.sum / (l.length : ℚ)

theorem update_metrics_count (c : Nat) (a d : ℚ) :
    (update_metrics c a d).1 = c + 1 := rfl

theorem update_metrics_mean (l : List ℚ) (dt : ℚ) :
    (update_metrics l.length (mean l) dt).2 = mean (l ++ [dt * 1000]) := by
  unfold update_metrics mean
  dsimp only
  rw [List.sum_append, List.length_append, List.sum_cons, List.sum_nil,
    List.length_cons, List.length_nil]
  push_cast
  rcases eq_or_ne ((l.length : ℚ)) 0 with h0 | hn
  · have hl : l = [] := List.length_eq_zero.mp (by exact_mod_cast h0)
    subst hl
    norm_num
  · rw [add_sub_cancel_right, div_mul_cancel₀ _ hn]
    ring_nf

/-- `SentinelBot.analyze_request`, remote-enhancement step (the `try`
block): if the awaited call returns inside the `wait_for` window, attach
the spider score and escalate on a score above 8.0; on a `wait_for` timeout
return the local detection untouched. -/
def enhance_with_spider (d : ThreatDetection) (cache : IntelCache) (now : ℚ)
    (req : RequestData) (remoteArrives : Bool) (net : NetOutcome) :
    ThreatDetection × IntelCache × Bool :=
  if remoteArrives then
    let r := analyze_threat cache now req.ip req.user_agent req.path net
    let d1 := { d with spider_score := r.1.threat_score }
    let d2 :=
      if 8 < r.1.threat_score then
        { d1 with severity_level := max d1.severity_level 9,
                  recommended_action := "block_immediately" }
      else d1
    (d2, r.2.1, r.2.2)
  else (d, cache, false)

/-- The mutable `SentinelBot` state (IP sets, detector rate map, spider
cache, performance metrics) threaded through one classification call. -/
structure BotState where
  whitelist_ips : List String
  blocked_ips : List String
  request_counts : RateMap
  spider_cache : IntelCache
  detection_count : Nat
  avg_detection_time : ℚ
  deriving DecidableEq, Repr

/-- `SentinelBot._create_safe_detection`. -/
def create_safe_detection (req : RequestData) (detection_time : ℚ) :
    ThreatDetection :=
  { threat_type := "none"
    severity_level := 0
    confidence := 1
    source_ip := req.ip
    user_agent := req.user_agent
    request_path := req.path
    spider_score := 0
    detection_time := detection_time
    recommended_action := "allow" }

/-- `SentinelBot._create_blocked_detection`. -/
def create_blocked_detection (req : RequestData) (detection_time : ℚ) :
    ThreatDetection :=
  { threat_type := "blocked_ip"
    severity_level := 10
    confidence := 1
    source_ip := req.ip
    user_agent := req.user_agent
    request_path := req.path
    spider_score := 10
    detection_time := detection_time
    recommended_action := "block_immediately" }

/-- `SentinelBot.analyze_request`: allow-list fast path, block-list fast
path, local detection, optional deadline-bounded remote enhancement for
severities in [5,8), metrics update.  `now` is the wall clock, `local_dt`
the local detector's elapsed ms, `remoteArrives` whether the awaited remote
call returns within the `wait_for` window, `net` its network outcome,
`elapsed` the seconds since `start_time` at the return point.  The Boolean
output records whether a remote network call was issued. -/
def bot_analyze_request (st : BotState) (req : RequestData)
    (sqlMatch xssMatch : Bool) (now local_dt : ℚ) (remoteArrives : Bool)
    (net : NetOutcome) (elapsed : ℚ) : ThreatDetection × BotState × Bool :=
  if st.whitelist_ips.contains req.ip then
    (create_safe_detection req (elapsed * 1000), st, false)
  else if st.blocked_ips.contains req.ip then
    (create_blocked_detection req (elapsed * 1000), st, false)
  else
    let lr := local_analyze_request sqlMatch xssMatch st.request_counts req now local_dt
    let st1 := { st with request_counts := lr.2 }
    if 8 ≤ lr.1.severity_level then
      let m := update_metrics st1.detection_count st1.avg_detection_time elapsed
      (lr.1, { st1 with detection_count := m.1, avg_detection_time := m.2 }, false)
    else
      let er :=
        if 5 ≤ lr.1.severity_level then
          enhance_with_spider lr.1 st1.spider_cache now req remoteArrives net
        else (lr.1, st1.spider_cache, false)
      let m := update_metrics st1.detection_count st1.avg_detection_time elapsed
      (er.1,
       { st1 with
           spider_cache := er.2.1
           detection_count := m.1
           avg_detection_time := m.2 },
       er.2.2)

/-- The timeout passed to `asyncio.wait_for` around the remote call: the
literal constant 0.03 s (30 ms), written as a function of the caller's
remaining latency budget, which the source never consults. -/
def remote_call_timeout (_remaining_budget : ℚ) : ℚ := 3 / 100

/-- Modelled from the spec: "call `RemoteThreatIntelClient.score` with a
deadline set to `min(remaining_budget, 30ms)`". -/
def spec_remote_deadline (remaining_budget : ℚ) : ℚ :=
  min remaining_budget (3 / 100)

theorem bot_whitelisted (st : BotState) (req : RequestData)
    (sql xss : Bool) (now dt : ℚ) (ra : Bool) (net : NetOutcome) (e : ℚ)
    (hw : st.whitelist_ips.contains req.ip = true) :
    bot_analyze_request st req sql xss now dt ra net e
      = (create_safe_detection req (e * 1000), st, false) := by
  unfold bot_analyze_request
  rw [if_pos hw]

theorem bot_blocklisted (st : BotState) (req : RequestData)
    (sql xss : Bool) (now dt : ℚ) (ra : Bool) (net : NetOutcome) (e : ℚ)
    (hw : st.whitelist_ips.contains req.ip = false)
    (hb : st.blocked_ips.contains req.ip = true) :
    bot_analyze_request st req sql xss now dt ra net e
      = (create_blocked_detection req (e * 1000), st, false) := by
  unfold bot_analyze_request
  rw [if_neg (ne_true_of_eq_false hw), if_pos hb]

theorem bot_local_high (st : BotState) (req : RequestData)
    (sql xss : Bool) (now dt : ℚ) (ra : Bool) (net : NetOutcome) (e : ℚ)
    (hw : st.whitelist_ips.contains req.ip = false)
    (hb : st.blocked_ips.contains req.ip = false)
    (h8 : 8 ≤ (local_analyze_request sql xss st.request_counts req now dt).1.severity_level) :
    bot_analyze_request st req sql xss now dt ra net e
      = ((local_analyze_request sql xss st.request_counts req now dt).1,
         { st with
             request_counts := (local_analyze_request sql xss st.request_counts req now dt).2
             detection_count := (update_metrics st.detection_count st.avg_detection_time e).1
             avg_detection_time := (update_metrics st.detection_count st.avg_detection_time e).2 },
         false) := by
  unfold bot_analyze_request
  rw [if_neg (ne_true_of_eq_false hw), if_neg (ne_true_of_eq_false hb)]
  dsimp only
  rw [if_pos h8]

theorem bot_medium (st : BotState) (req : RequestData)
    (sql xss : Bool) (now dt : ℚ) (ra : Bool) (net : NetOutcome) (e : ℚ)
    (hw : st.whitelist_ips.contains req.ip = false)
    (hb : st.blocked_ips.contains req.ip = false)
    (h5 : 5 ≤ (local_analyze_request sql xss st.request_counts req now dt).1.severity_level)
    (h8 : (local_analyze_request sql xss st.request_counts req now dt).1.severity_level < 8) :
    bot_analyze_request st req sql xss now dt ra net e
      = ((enhance_with_spider (local_analyze_request sql xss st.request_counts req now dt).1
            st.spider_cache now req ra net).1,
         { st with
             request_counts := (local_analyze_request sql xss st.request_counts req now dt).2
             spider_cache := (enhance_with_spider
               (local_analyze_request sql xss st.request_counts req now dt).1
               st.spider_cache now req ra net).2.1
             detection_count := (update_metrics st.detection_count st.avg_detection_time e).1
             avg_detection_time := (update_metrics st.detection_count st.avg_detection_time e).2 },
         (enhance_with_spider (local_analyze_request sql xss st.request_counts req now dt).1
            st.spider_cache now req ra net).2.2) := by
  have h8' : ¬ 8 ≤ (local_analyze_request sql xss st.request_counts req now dt).1.severity_level :=
    Nat.not_le.mpr h8
  unfold bot_analyze_request
  rw [if_neg (ne_true_of_eq_false hw), if_neg (ne_true_of_eq_false hb)]
  dsimp only
  rw [if_neg h8', if_pos h5]

theorem bot_local_low (st : BotState) (req : RequestData)
    (sql xss : Bool) (now dt : ℚ) (ra : Bool) (net : NetOutcome) (e : ℚ)
    (hw : st.whitelist_ips.contains req.ip = false)
    (hb : st.blocked_ips.contains req.ip = false)
    (h5 : (local_analyze_request sql xss st.request_counts req now dt).1.severity_level < 5) :
    bot_analyze_request st req sql xss now dt ra net e
      = ((local_analyze_request sql xss st.request_counts req now dt).1,
         { st with
             request_counts := (local_analyze_request sql xss st.request_counts req now dt).2
             detection_count := (update_metrics st.detection_count st.avg_detection_time e).1
             avg_detection_time := (update_metrics st.detection_count st.avg_detection_time e).2 },
         false) := by
  have h8' : ¬ 8 ≤ (local_analyze_request sql xss st.request_counts req now dt).1.severity_level := by
    omega
  have h5' : ¬ 5 ≤ (local_analyze_request sql xss st.request_counts req now dt).1.severity_level := by
    omega
  unfold bot_analyze_request
  rw [if_neg (ne_true_of_eq_false hw), if_neg (ne_true_of_eq_false hb)]
  dsimp only
  rw [if_neg h8', if_neg h5']

theorem local_spider_zero (sql xss : Bool) (rc : RateMap) (req : RequestData)
    (now dt : ℚ) :
    (local_analyze_request sql xss rc req now dt).1.spider_score = 0 := rfl

theorem analyze_threat_miss_ok (cache : IntelCache) (now : ℚ)
    (ip ua path : String) (resp : RemoteResp)
    (hmiss : cache.lookup (cacheKey ip ua path) = none) :
    analyze_threat cache now ip ua path (NetOutcome.response 200 resp)
      = (resp, cacheStore cache (cacheKey ip ua path) (resp, now), true) := by
  simp [analyze_threat, hmiss, analyze_threat_net]

theorem analyze_threat_miss_fail (cache : IntelCache) (now : ℚ)
    (ip ua path : String) (net : NetOutcome)
    (hmiss : cache.lookup (cacheKey ip ua path) = none)
    (hfail : ∀ body, net ≠ NetOutcome.response 200 body) :
    analyze_threat cache now ip ua path net = (neutral_score, cache, true) := by
  simp [analyze_threat, hmiss, analyze_threat_net_fail _ _ _ _ hfail]

theorem enhance_arrival_escalates (d : ThreatDetection) (cache : IntelCache)
    (now : ℚ) (req : RequestData) (resp : RemoteResp)
    (hmiss : cache.lookup (cacheKey req.ip req.user_agent req.path) = none)
    (hscore : 8 < resp.threat_score) :
    (enhance_with_spider d cache now req true (NetOutcome.response 200 resp)).1
      = { d with
            spider_score := resp.threat_score
            severity_level := max d.severity_level 9
            recommended_action := "block_immediately" } := by
  unfold enhance_with_spider
  rw [if_pos rfl]
  dsimp only
  rw [analyze_threat_miss_ok cache now req.ip req.user_agent req.path resp hmiss]
  dsimp only
  rw [if_pos hscore]

theorem enhance_no_arrival (d : ThreatDetection) (cache : IntelCache)
    (now : ℚ) (req : RequestData) (net : NetOutcome) :
    enhance_with_spider d cache now req false net = (d, cache, false) := by
  unfold enhance_with_spider
  rw [if_neg Bool.false_ne_true]

theorem threat_set_spider_eq (d : ThreatDetection) (h : d.spider_score = 0) :
    ({ d with spider_score := 0 } : ThreatDetection) = d := by
  cases d
  simp_all

theorem enhance_failed (d : ThreatDetection) (cache : IntelCache)
    (now : ℚ) (req : RequestData) (net : NetOutcome)
    (hd : d.spider_score = 0)
    (hmiss : cache.lookup (cacheKey req.ip req.user_agent req.path) = none)
    (hfail : ∀ body, net ≠ NetOutcome.response 200 body) :
    (enhance_with_spider d cache now req true net).1 = d := by
  unfold enhance_with_spider
  rw [if_pos rfl]
  dsimp only
  rw [analyze_threat_miss_fail cache now req.ip req.user_agent req.path net hmiss hfail]
  dsimp only
  rw [if_neg (by norm_num [neutral_score])]
  exact threat_set_spider_eq d hd

/-- Empty-state fixture: no listed IPs, cold caches, fresh metrics. -/
def stEmpty : BotState :=
  { whitelist_ips := []
    blocked_ips := []
    request_counts := []
    spider_cache := []
    detection_count := 0
    avg_detection_time := 0 }

/-- Fixture: one IP simultaneously allow-listed and block-listed. -/
def stWhiteAndBlocked : BotState :=
  { whitelist_ips := ["10.0.0.1"]
    blocked_ips := ["10.0.0.1"]
    request_counts := []
    spider_cache := []
    detection_count := 0
    avg_detection_time := 0 }

/-- Fixture: a single block-listed IP. -/
def stBlockedOnly : BotState :=
  { whitelist_ips := []
    blocked_ips := ["185.13.13.13"]
    request_counts := []
    spider_cache := []
    detection_count := 0
    avg_detection_time := 0 }

/-- A hostile-looking request from the doubly-listed IP. -/
def reqListed : RequestData :=
  { ip := "10.0.0.1"
    user_agent := "sqlmap/1.0"
    path := "/..%2fetc/passwd"
    method := "GET"
    headers := []
    query_params := [] }

/-- A plain request from the block-listed IP. -/
def reqFromBlocked : RequestData :=
  { ip := "185.13.13.13"
    user_agent := "Mozilla/5.0"
    path := "/"
    method := "GET"
    headers := []
    query_params := [] }

/-- A benign request (no evaluator matches). -/
def reqBenign : RequestData :=
  { ip := "198.51.100.7"
    user_agent := "Mozilla/5.0"
    path := "/index.html"
    method := "GET"
    headers := []
    query_params := [] }

/-- A request whose only local signal is the scanner user agent
(severity 5). -/
def reqScanner : RequestData :=
  { ip := "203.0.113.9"
    user_agent := "sqlmap/1.0"
    path := "/api/users"
    method := "GET"
    headers := []
    query_params := [] }

/-- C1 counterexample: on the block-listed path the remote service is not
consulted, yet the returned remote score is 10.0, not 0. -/
theorem c1_counterexample :
    (bot_analyze_request stBlockedOnly reqFromBlocked false false 0 0 false
        NetOutcome.timeout 0).1.spider_score ≠ 0 := by
  decide

/-- C1 (amended): the remote score of the returned detection is 0 on the
allow-listed path, on the local-high path (severity ≥ 8) and on the
local-low path (severity < 5), but 10.0 — not 0 — on the block-listed
path. -/
theorem c1_remote_score_paths (st : BotState) (req : RequestData)
    (sql xss : Bool) (now dt : ℚ) (ra : Bool) (net : NetOutcome) (e : ℚ) :
    (st.whitelist_ips.contains req.ip = true →
      (bot_analyze_request st req sql xss now dt ra net e).1.spider_score = 0) ∧
    (st.whitelist_ips.contains req.ip = false →
      st.blocked_ips.contains req.ip = true →
      (bot_analyze_request st req sql xss now dt ra net e).1.spider_score = 10) ∧
    (st.whitelist_ips.contains req.ip = false →
      st.blocked_ips.contains req.ip = false →
      8 ≤ (local_analyze_request sql xss st.request_counts req now dt).1.severity_level →
      (bot_analyze_request st req sql xss now dt ra net e).1.spider_score = 0) ∧
    (st.whitelist_ips.contains req.ip = false →
      st.blocked_ips.contains req.ip = false →
      (local_analyze_request sql xss st.request_counts req now dt).1.severity_level < 5 →
      (bot_analyze_request st req sql xss now dt ra net e).1.spider_score = 0) := by
  refine ⟨?_, ?_, ?_, ?_⟩
  · intro hw
    rw [bot_whitelisted st req sql xss now dt ra net e hw]
    rfl
  · intro hw hb
    rw [bot_blocklisted st req sql xss now dt ra net e hw hb]
    rfl
  · intro hw hb h8
    rw [bot_local_high st req sql xss now dt ra net e hw hb h8]
    exact local_spider_zero sql xss st.request_counts req now dt
  · intro hw hb h5
    rw [bot_local_low st req sql xss now dt ra net e hw hb h5]
    exact local_spider_zero sql xss st.request_counts req now dt

/-- C1 witness: the four paths at concrete inputs (allow-listed;
block-listed; local severity 9 via a SQL-injection match; benign request
with severity 0). -/
theorem c1_witness :
    (bot_analyze_request stWhiteAndBlocked reqListed false false 0 0 false
        NetOutcome.timeout 0).1.spider_score = 0 ∧
    (bot_analyze_request stBlockedOnly reqFromBlocked false false 0 0 false
        NetOutcome.timeout 0).1.spider_score = 10 ∧
    (bot_analyze_request stEmpty reqBenign true false 0 0 false
        NetOutcome.timeout 0).1.spider_score = 0 ∧
    (bot_analyze_request stEmpty reqBenign false false 0 0 false
        NetOutcome.timeout 0).1.spider_score = 0 :=
  ⟨(c1_remote_score_paths stWhiteAndBlocked reqListed false false 0 0 false
      NetOutcome.timeout 0).1 (by decide),
   (c1_remote_score_paths stBlockedOnly reqFromBlocked false false 0 0 false
      NetOutcome.timeout 0).2.1 (by decide) (by decide),
   (c1_remote_score_paths stEmpty reqBenign true false 0 0 false
      NetOutcome.timeout 0).2.2.1 (by decide) (by decide) (by decide),
   (c1_remote_score_paths stEmpty reqBenign false false 0 0 false
      NetOutcome.timeout 0).2.2.2 (by decide) (by decide) (by decide)⟩

/-- C2 counterexample: with 10 ms of remaining budget the source still
passes the fixed 30 ms deadline, not min(remaining_budget, 30 ms). -/
theorem c2_counterexample :
    remote_call_timeout (1 / 100) ≠ spec_remote_deadline (1 / 100) := by
  norm_num [remote_call_timeout, spec_remote_deadline, min_def]

/-- C2 (amended): the deadline handed to the remote enhancement call is the
fixed constant 30 ms (0.03 s), whatever the caller's remaining budget. -/
theorem c2_fixed_deadline (remaining_budget : ℚ) :
    remote_call_timeout remaining_budget = 3 / 100 := rfl

/-- C4 counterexample: an allow-listed classification performs no metrics
update — the count does not increase. -/
theorem c4_counterexample :
    (bot_analyze_request stWhiteAndBlocked reqListed false false 0 0 false
        NetOutcome.timeout 0).2.1.detection_count
      ≠ stWhiteAndBlocked.detection_count + 1 := by
  decide

/-- C4 (amended): allow-listed and block-listed classifications leave the
whole state (metrics included) untouched; every other classification path
increments the count by exactly one and keeps the running average equal to
the arithmetic mean of all recorded latencies. -/
theorem c4_metrics_update (st : BotState) (req : RequestData) (sql xss : Bool)
    (now dt : ℚ) (ra : Bool) (net : NetOutcome) (e : ℚ) (l : List ℚ) :
    (st.whitelist_ips.contains req.ip = true →
      (bot_analyze_request st req sql xss now dt ra net e).2.1 = st) ∧
    (st.whitelist_ips.contains req.ip = false →
      st.blocked_ips.contains req.ip = true →
      (bot_analyze_request st req sql xss now dt ra net e).2.1 = st) ∧
    (st.whitelist_ips.contains req.ip = false →
      st.blocked_ips.contains req.ip = false →
      ((bot_analyze_request st req sql xss now dt ra net e).2.1.detection_count
          = st.detection_count + 1 ∧
       (st.detection_count = l.length → st.avg_detection_time = mean l →
        (bot_analyze_request st req sql xss now dt ra net e).2.1.avg_detection_time
          = mean (l ++ [e * 1000])))) := by
  refine ⟨?_, ?_, ?_⟩
  · intro hw
    rw [bot_whitelisted st req sql xss now dt ra net e hw]
  · intro hw hb
    rw [bot_blocklisted st req sql xss now dt ra net e hw hb]
  · intro hw hb
    have hm : (bot_analyze_request st req sql xss now dt ra net e).2.1.detection_count
          = (update_metrics st.detection_count st.avg_detection_time e).1 ∧
        (bot_analyze_request st req sql xss now dt ra net e).2.1.avg_detection_time
          = (update_metrics st.detection_count st.avg_detection_time e).2 := by
      by_cases h8 : 8 ≤ (local_analyze_request sql xss st.request_counts req now dt).1.severity_level
      · rw [bot_local_high st req sql xss now dt ra net e hw hb h8]
        exact ⟨rfl, rfl⟩
      · by_cases h5 : 5 ≤ (local_analyze_request sql xss st.request_counts req now dt).1.severity_level
        · rw [bot_medium st req sql xss now dt ra net e hw hb h5 (by omega)]
          exact ⟨rfl, rfl⟩
        · rw [bot_local_low st req sql xss now dt ra net e hw hb (by omega)]
          exact ⟨rfl, rfl⟩
    refine ⟨by rw [hm.1]; rfl, ?_⟩
    intro hc ha
    rw [hm.2, hc, ha]
    exact update_metrics_mean l e

/-- C4 witness: an allow-listed call leaves the state untouched; a benign
non-listed call takes the count from 0 to 1 and the average to the mean of
the single recorded latency. -/
theorem c4_witness :
    (bot_analyze_request stWhiteAndBlocked reqListed false false 0 0 false
        NetOutcome.timeout 0).2.1 = stWhiteAndBlocked ∧
    (bot_analyze_request stEmpty reqBenign false false 0 0 false
        NetOutcome.timeout 1).2.1.detection_count = 1 ∧
    (bot_analyze_request stEmpty reqBenign false false 0 0 false
        NetOutcome.timeout 1).2.1.avg_detection_time
      = mean ([] ++ [(1 : ℚ) * 1000]) := by
  have h := c4_metrics_update stEmpty reqBenign false false 0 0 false
    NetOutcome.timeout 1 []
  have h3 := h.2.2 (by decide) (by decide)
  exact ⟨(c4_metrics_update stWhiteAndBlocked reqListed false false 0 0 false
      NetOutcome.timeout 0 []).1 (by decide),
    h3.1, h3.2 rfl (by simp [stEmpty, mean])⟩

/-- C5: for a classification with local severity in [5,8) that reaches the
remote call: a remote verdict scoring strictly above 8.0 escalates the
final severity to max(local, 9) with action `block_immediately`; a
`wait_for` timeout, or a failed remote call, leaves the local detection
(severity and action) unchanged. -/
theorem c5_remote_escalation (st : BotState) (req : RequestData)
    (sql xss : Bool) (now dt e : ℚ) (resp : RemoteResp) (net : NetOutcome)
    (hw : st.whitelist_ips.contains req.ip = false)
    (hb : st.blocked_ips.contains req.ip = false)
    (h5 : 5 ≤ (local_analyze_request sql xss st.request_counts req now dt).1.severity_level)
    (h8 : (local_analyze_request sql xss st.request_counts req now dt).1.severity_level < 8) :
    (st.spider_cache.lookup (cacheKey req.ip req.user_agent req.path) = none →
      8 < resp.threat_score →
      ((bot_analyze_request st req sql xss now dt true
          (NetOutcome.response 200 resp) e).1.severity_level
          = max (local_analyze_request sql xss st.request_counts req now dt).1.severity_level 9 ∧
       (bot_analyze_request st req sql xss now dt true
          (NetOutcome.response 200 resp) e).1.recommended_action
          = "block_immediately")) ∧
    ((bot_analyze_request st req sql xss now dt false net e).1
        = (local_analyze_request sql xss st.request_counts req now dt).1) ∧
    ((∀ body, net ≠ NetOutcome.response 200 body) →
      st.spider_cache.lookup (cacheKey req.ip req.user_agent req.path) = none →
      (bot_analyze_request st req sql xss now dt true net e).1
        = (local_analyze_request sql xss st.request_counts req now dt).1) := by
  refine ⟨?_, ?_, ?_⟩
  · intro hmiss hscore
    rw [bot_medium st req sql xss now dt true (NetOutcome.response 200 resp) e hw hb h5 h8]
    dsimp only
    rw [enhance_arrival_escalates _ _ _ _ _ hmiss hscore]
    exact ⟨rfl, rfl⟩
  · rw [bot_medium st req sql xss now dt false net e hw hb h5 h8]
    dsimp only
    rw [enhance_no_arrival]
  · intro hfail hmiss
    rw [bot_medium st req sql xss now dt true net e hw hb h5 h8]
    dsimp only
    exact enhance_failed _ _ _ _ _
      (local_spider_zero sql xss st.request_counts req now dt) hmiss hfail

/-- C5 witness: `sqlmap/1.0` alone gives local severity 5; a remote score
of 9.0 escalates to severity 9 / `block_immediately`; a remote timeout
keeps severity 5 / `rate_limit`. -/
theorem c5_witness :
    ((bot_analyze_request stEmpty reqScanner false false 0 0 true
        (NetOutcome.response 200 respHigh) 0).1.severity_level = 9 ∧
     (bot_analyze_request stEmpty reqScanner false false 0 0 true
        (NetOutcome.response 200 respHigh) 0).1.recommended_action
        = "block_immediately") ∧
    ((bot_analyze_request stEmpty reqScanner false false 0 0 false
        NetOutcome.timeout 0).1.severity_level = 5 ∧
     (bot_analyze_request stEmpty reqScanner false false 0 0 false
        NetOutcome.timeout 0).1.recommended_action = "rate_limit") := by
  have h := c5_remote_escalation stEmpty reqScanner false false 0 0 0 respHigh
    NetOutcome.timeout (by decide) (by decide) (by decide) (by decide)
  refine ⟨?_, ?_⟩
  · have hesc := h.1 (by decide) (by decide)
    exact ⟨hesc.1.trans (by decide), hesc.2⟩
  · have hloc := h.2.1
    exact ⟨(congrArg ThreatDetection.severity_level hloc).trans (by decide),
      (congrArg ThreatDetection.recommended_action hloc).trans (by decide)⟩

/-- C10: an IP on both the allow set and the block set gets the
allow-listed result — severity 0, action `allow`, confidence 1.0 — because
the allow-list check runs first. -/
theorem c10_allowlist_precedence (st : BotState) (req : RequestData)
    (sql xss : Bool) (now dt : ℚ) (ra : Bool) (net : NetOutcome) (e : ℚ)
    (hw : st.whitelist_ips.contains req.ip = true)
    (_hb : st.blocked_ips.contains req.ip = true) :
    (bot_analyze_request st req sql xss now dt ra net e).1
        = create_safe_detection req (e * 1000) ∧
    (bot_analyze_request st req sql xss now dt ra net e).1.severity_level = 0 ∧
    (bot_analyze_request st req sql xss now dt ra net e).1.recommended_action
        = "allow" ∧
    (bot_analyze_request st req sql xss now dt ra net e).1.confidence = 1 := by
  rw [bot_whitelisted st req sql xss now dt ra net e hw]
  exact ⟨rfl, rfl, rfl, rfl⟩

/-- C10 witness: `10.0.0.1` is in both sets; the hostile-looking request is
still classified as the allow-listed result. -/
theorem c10_witness :
    (bot_analyze_request stWhiteAndBlocked reqListed false false 0 0 false
        NetOutcome.timeout 0).1 = create_safe_detection reqListed ((0 : ℚ) * 1000) ∧
    (bot_analyze_request stWhiteAndBlocked reqListed false false 0 0 false
        NetOutcome.timeout 0).1.severity_level = 0 ∧
    (bot_analyze_request stWhiteAndBlocked reqListed false false 0 0 false
        NetOutcome.timeout 0).1.recommended_action = "allow" ∧
    (bot_analyze_request stWhiteAndBlocked reqListed false false 0 0 false
        NetOutcome.timeout 0).1.confidence = 1 :=
  c10_allowlist_precedence stWhiteAndBlocked reqListed false false 0 0 false
    NetOutcome.timeout 0 (by decide) (by decide)

end SentinelBot
